import Mathlib

/-!
Verification of the CodeBlock re-render trigger scripts.

The repository holds two variants of a browser script that watches chat
message DOM nodes and asks the host application to re-render a message
when a rendered front-end code preview has been removed:

* the userscript variant (`part_000`), modelled here in namespace `US`;
* the `index.js` "v3" variant, modelled here in namespace `V3`
  (the file `index.js` also carries a partial copy of the userscript,
  whose functions `tryTriggerRerender` / `observeMesText` coincide with
  the `part_000` versions modelled at top level).

External effects (host API calls, event emissions, DOM dispatches,
button clicks, marker insertions) are modelled by an `Env` record that
states which host facilities exist and which calls throw, and by an
`Action` trace recording each attempted external call.  A JavaScript
`throw` is an `Except.error`; a `try`/`catch` block is the `afterStrat`
combinator that turns an error into fall-through to the next strategy.
-/

namespace CodeBlockRerender

/-- JavaScript `s.includes(pat)`: substring containment. -/
def jsIncludes (s pat : String) : Bool :=
  decide (pat.toList <:+: s.toList)

/-- JavaScript `s.toLowerCase()` (ASCII range, which covers every
marker, event name and button label the scripts compare). -/
def jsToLower (s : String) : String :=
  String.mk (s.data.map Char.toLower)

/-- A whitespace character as JavaScript `trim` treats the characters
occurring here. -/
def isJsSpace (c : Char) : Bool :=
  c == ' ' || c == '\t' || c == '\n' || c == '\r'

/-- JavaScript `s.trim()`: strip whitespace from both ends. -/
def jsTrim (s : String) : String :=
  String.mk (((s.data.dropWhile isJsSpace).reverse.dropWhile isJsSpace).reverse)

/-- Constant `FRONTEND_MARKERS` (`part_000` line 19; inlined in `index.js` line 13). -/
def FRONTEND_MARKERS : List String := ["html>", "<head>", "<body"]

namespace V3

/-- Function `isFrontend` from `index.js` lines 12–14: the content is a
front-end block when some marker is a substring of it. -/
def isFrontend (content : String) : Bool :=
  FRONTEND_MARKERS.any (fun tag => jsIncludes content tag)

end V3

namespace US

/-- Function `isFrontend` from `part_000` lines 25–29: a falsy content
(null / undefined, modelled as `none`, or the empty string) yields
`false`; otherwise the content is lowercased before marker matching. -/
def isFrontend (content : Option String) : Bool :=
  match content with
  | none => false
  | some s =>
    if s.isEmpty then false
    else FRONTEND_MARKERS.any (fun tag => jsIncludes (jsToLower s) tag)

/-- The parent element of a `pre` block, as far as `isPreRendered`
inspects it: its class list containing `TH-render`, and whether it has
an `iframe` descendant. -/
structure ParentInfo where
  isTHRender : Bool
  hasIframe : Bool
deriving DecidableEq

/-- A `pre` code block inside a `mes_text` element: its text content
(null coalesced to the empty string) and its parent element, if any. -/
structure PreBlock where
  content : String
  parent : Option ParentInfo
deriving DecidableEq

/-- Function `isPreRendered` from `part_000` lines 32–40: null element or null
parent give `false`; a parent with the `TH-render` class answers whether
it contains an `iframe`; any other parent gives `false`. -/
def isPreRendered (preEl : Option PreBlock) : Bool :=
  match preEl with
  | none => false
  | some p =>
    match p.parent with
    | none => false
    | some par => if par.isTHRender then par.hasIframe else false

end US

/-- One attempted external call made by `tryTriggerRerender`. -/
inductive Action where
  | refreshOne (id : Nat)
  | emit (eventName : String) (id : Nat)
  | dispatchCustom (id : Nat)
  | callGlobal (globalName : String) (id : Nat)
  | clickButton (label : String)
  | insertMarker
deriving DecidableEq

/-- One own property of `window`, as inspected by the heuristic scan:
its name, whether reading it throws (a throwing getter), whether its
value is a function, and whether calling it with one numeric argument
throws. -/
structure GlobalProp where
  name : String
  getThrows : Bool
  isFunction : Bool
  callThrows : Bool

/-- A clickable element matched by the button-scan selector: its text
content and whether clicking it throws. -/
structure ButtonEl where
  text : String
  clickThrows : Bool

/-- The host environment `tryTriggerRerender` runs against. -/
structure Env where
  thRefreshAvailable : Bool
  thRefreshThrows : Bool
  eventSourceDefined : Bool
  knownEventType : Bool
  knownEventName : String
  emitThrows : String → Bool
  mesTextPresent : Bool
  dispatchThrows : Bool
  globals : List GlobalProp
  buttons : List ButtonEl
  appendThrows : Bool

/-- The outcome of one strategy block of `tryTriggerRerender`:
`Except.ok true` means the block executed `return true`,
`Except.ok false` means it fell through without returning,
`Except.error ()` means it threw (to be caught by the catch of the
block); alongside, the external calls the block attempted. -/
abbrev StratRes := Except Unit Bool × List Action

/-- The guessed event names tried by strategy two
(`part_000` lines 68–75). -/
def emitCandidates : List String :=
  ["MESSAGE_UPDATED", "message_updated", "messageUpdated",
   "MESSAGE:UPDATED", "render_message", "refresh_message"]

/-- Constant `possibleButtonTexts` (`part_000` lines 130–132). -/
def possibleButtonTexts : List String :=
  ["渲染前端界面", "Render frontend", "Render", "显示前端代码块", "显示前端",
   "render front", "Render code"]

/-- Strategy one (`part_000` lines 48–56): call
`TavernHelper.refreshOneMessage` when available and return `true`. -/
def strat1 (env : Env) (mid : Nat) : StratRes :=
  if env.thRefreshAvailable then
    if env.thRefreshThrows then (Except.error (), [Action.refreshOne mid])
    else (Except.ok true, [Action.refreshOne mid])
  else (Except.ok false, [])

/-- The inner candidate loop of strategy two (`part_000` lines 76–85):
each emit sits in its own `try`; a throw moves to the next candidate,
a non-throwing emit returns `true`. -/
def candLoop (env : Env) (mid : Nat) : List String → Bool × List Action
  | [] => (false, [])
  | n :: rest =>
    if env.emitThrows n then
      let r := candLoop env mid rest
      (r.1, Action.emit n mid :: r.2)
    else (true, [Action.emit n mid])

/-- Strategy two (`part_000` lines 59–89): when `eventSource` exists,
emit the known `event_types.MESSAGE_UPDATED` when that is present and
truthy (a throw here escapes the whole block), otherwise walk the
guessed candidate names. -/
def strat2 (env : Env) (mid : Nat) : StratRes :=
  if env.eventSourceDefined then
    if env.knownEventType then
      if env.emitThrows env.knownEventName then
        (Except.error (), [Action.emit env.knownEventName mid])
      else (Except.ok true, [Action.emit env.knownEventName mid])
    else
      let r := candLoop env mid emitCandidates
      (Except.ok r.1, r.2)
  else (Except.ok false, [])

/-- Strategy three (`part_000` lines 92–104): dispatch the custom DOM
event `tavernhelper:message-updated` on the message-text element. -/
def strat3 (env : Env) (mid : Nat) : StratRes :=
  if env.mesTextPresent then
    if env.dispatchThrows then (Except.error (), [Action.dispatchCustom mid])
    else (Except.ok true, [Action.dispatchCustom mid])
  else (Except.ok false, [])

/-- The name filter of strategy four (`part_000` line 109): the
lowercased property name must contain `message` or `refresh`. -/
def heuristicNameMatches (n : String) : Bool :=
  jsIncludes (jsToLower n) "message" || jsIncludes (jsToLower n) "refresh"

/-- The property loop of strategy four (`part_000` lines 108–121).
Reading `window[fnName]` happens outside the inner `try`, so a throwing
getter aborts the whole strategy; a throwing call is caught by the
inner `try` and the loop continues. -/
def globalsLoop (mid : Nat) : List GlobalProp → StratRes
  | [] => (Except.ok false, [])
  | g :: rest =>
    if heuristicNameMatches g.name then
      if g.getThrows then (Except.error (), [])
      else if g.isFunction then
        if g.callThrows then
          let r := globalsLoop mid rest
          (r.1, Action.callGlobal g.name mid :: r.2)
        else (Except.ok true, [Action.callGlobal g.name mid])
      else globalsLoop mid rest
    else globalsLoop mid rest

/-- Strategy four (`part_000` lines 107–124): scan the own properties
of the global object for plausible refresh functions. -/
def strat4 (env : Env) (mid : Nat) : StratRes :=
  globalsLoop mid env.globals

/-- The label test of strategy five (`part_000` lines 137–143): the
trimmed button text matches when it contains, or is contained in, one
of the known phrases. -/
def buttonLabelMatches (txt : String) : Bool :=
  possibleButtonTexts.any (fun c => jsIncludes txt c || jsIncludes c txt)

/-- The button loop of strategy five (`part_000` lines 133–144):
buttons with empty trimmed text are skipped; the first matching button
is clicked and `true` returned.  `btn.click()` is not inside an inner
`try`, so a throwing click escapes the whole strategy. -/
def buttonsLoop : List ButtonEl → StratRes
  | [] => (Except.ok false, [])
  | b :: rest =>
    if (jsTrim b.text).isEmpty then buttonsLoop rest
    else if buttonLabelMatches (jsTrim b.text) then
      if b.clickThrows then (Except.error (), [Action.clickButton (jsTrim b.text)])
      else (Except.ok true, [Action.clickButton (jsTrim b.text)])
    else buttonsLoop rest

/-- Strategy five (`part_000` lines 127–148): click a render button
near the message when one is present. -/
def strat5 (env : Env) (_mid : Nat) : StratRes :=
  if env.mesTextPresent then buttonsLoop env.buttons
  else (Except.ok false, [])

/-- Strategy six (`part_000` lines 151–165): append a hidden marker
span to the message-text element to nudge other mutation watchers. -/
def strat6 (env : Env) (_mid : Nat) : StratRes :=
  if env.mesTextPresent then
    if env.appendThrows then (Except.error (), [Action.insertMarker])
    else (Except.ok true, [Action.insertMarker])
  else (Except.ok false, [])

/-- A source `try { ... } catch (e) { log(...) }` block around one
strategy: `return true` ends the whole function, a throw is swallowed
and control falls through to the continuation `k`, as does a block that
ends without returning.  `acc` is the trace accumulated so far. -/
def afterStrat (acc : List Action) (s : StratRes)
    (k : List Action → Except Unit (Bool × List Action)) :
    Except Unit (Bool × List Action) :=
  match s with
  | (Except.ok true, as) => Except.ok (true, acc ++ as)
  | (Except.ok false, as) => k (acc ++ as)
  | (Except.error _, as) => k (acc ++ as)

/-- Function `tryTriggerRerender` (`part_000` lines 44–169; identical copy in
`index.js` lines 124–249): the six strategy blocks in source order,
each inside its own `try`/`catch`, ending with `return false`. -/
def tryTriggerRerender (env : Env) (mid : Nat) :
    Except Unit (Bool × List Action) :=
  afterStrat [] (strat1 env mid) (fun a1 =>
  afterStrat a1 (strat2 env mid) (fun a2 =>
  afterStrat a2 (strat3 env mid) (fun a3 =>
  afterStrat a3 (strat4 env mid) (fun a4 =>
  afterStrat a4 (strat5 env mid) (fun a5 =>
  afterStrat a5 (strat6 env mid) (fun a6 =>
  Except.ok (false, a6)))))))

/-- The six strategies in the order the source lists them. -/
def stratList (env : Env) (mid : Nat) : List StratRes :=
  [strat1 env mid, strat2 env mid, strat3 env mid,
   strat4 env mid, strat5 env mid, strat6 env mid]

/-- Specification-side reading of the spec sentence: attempt the
strategies in order, stop with `true` at the first one that applies
and does not throw, give `false` when none applied; the trace is the
concatenation of the traces of the strategies attempted. -/
def firstSuccess : List StratRes → Bool × List Action
  | [] => (false, [])
  | (r, as) :: rest =>
    match r with
    | Except.ok true => (true, as)
    | Except.ok false => ((firstSuccess rest).1, as ++ (firstSuccess rest).2)
    | Except.error _ => ((firstSuccess rest).1, as ++ (firstSuccess rest).2)

/-- The boolean result of `tryTriggerRerender` as its caller sees it. -/
def rerenderResult (env : Env) (mid : Nat) : Bool :=
  match tryTriggerRerender env mid with
  | Except.ok r => r.1
  | Except.error _ => false

/-- The retry delay of the single delayed re-attempt
(`part_000` line 238). -/
def RETRY_DELAY_MS : Nat := 250

/-- Model of `part_000` lines 235–239: the immediate call, and, only
when it reported `false`, one re-attempt scheduled `RETRY_DELAY_MS`
later (whose own result is discarded and schedules nothing further).
Each entry is (delay in ms from the evaluation, result).  The retry
runs later, so it is given its own environment `env2`. -/
def triggerAttempts (env1 env2 : Env) (mid : Nat) : List (Nat × Bool) :=
  if rerenderResult env1 mid then [(0, true)]
  else [(0, false), (RETRY_DELAY_MS, rerenderResult env2 mid)]

/-- A `span` element as strategy six creates it: a node identity, its
`display:none` styling, and its class name. -/
structure SpanNode where
  nodeId : Nat
  displayNone : Bool
  cls : String
deriving DecidableEq

/-- The marker span built at `part_000` lines 153–155. -/
def mkMarker (freshId : Nat) : SpanNode :=
  { nodeId := freshId, displayNone := true, cls := "__cb_rerender_marker__" }

/-- The delay after which the marker removal is scheduled
(`part_000` line 159). -/
def MARKER_REMOVE_DELAY_MS : Nat := 300

/-- The append `mesTextEl.appendChild(marker)`. -/
def appendChild (children : List SpanNode) (n : SpanNode) : List SpanNode :=
  children ++ [n]

/-- The removal `marker.remove()`: the node removes itself from its parent. -/
def removeChild (children : List SpanNode) (n : SpanNode) : List SpanNode :=
  children.erase n

/-- The DOM effect of strategy six on the children of the message-text
element (`part_000` lines 152–159): the children right after the append,
and the children after the scheduled removal has run. -/
def markerStrategyDom (children : List SpanNode) (freshId : Nat) :
    List SpanNode × List SpanNode :=
  let m := mkMarker freshId
  let afterAppend := appendChild children m
  (afterAppend, removeChild afterAppend m)

namespace V3

/-- The observer bookkeeping of the v3 variant: the contents of the
`observedElements` weak set, and the elements onto which a
`MutationObserver` has been attached (with multiplicity, in order). -/
structure ObsState where
  observed : List Nat
  attached : List Nat
deriving DecidableEq

/-- Function `observeMesText` from `index.js` lines 48–90, observer-attachment
bookkeeping.  Line 49 returns early when the element is in the set;
line 50 reads `observedElements.has(mesTextEl);` and discards the
result, so nothing is ever added to the set; then a new
`MutationObserver` is created and attached (line 89). -/
def observeMesText (st : ObsState) (el : Nat) : ObsState :=
  if st.observed.contains el then st
  else
    let _ := st.observed.contains el
    { st with attached := st.attached ++ [el] }

end V3

namespace US

/-- The userscript `observeMesText` guard (`part_000` lines 173–174):
return early when the element is already in the set, otherwise add it
and attach an observer. -/
def observeMesTextGuard (st : CodeBlockRerender.V3.ObsState) (el : Nat) :
    CodeBlockRerender.V3.ObsState :=
  if st.observed.contains el then st
  else
    { observed := st.observed ++ [el], attached := st.attached ++ [el] }

/-- Outcome of the debounced evaluation body
(`part_000` lines 209–231). -/
inductive EvalOutcome where
  | noFrontend
  | alreadyRendered
  | trigger
deriving DecidableEq

/-- The `pre` scan loop (`part_000` lines 213–221): `found` carries
`foundFrontend` across iterations; a front-end block that is not
pre-rendered sets `needsRender` and breaks. Yields
(`foundFrontend`, `needsRender`). -/
def scanPres : Bool → List PreBlock → Bool × Bool
  | found, [] => (found, false)
  | found, p :: rest =>
    if isFrontend (some (jsTrim p.content)) then
      if isPreRendered (some p) then scanPres true rest
      else (true, true)
    else scanPres found rest

/-- The debounced evaluation of a message (`part_000` lines 209–231):
no front-end block found, all found blocks already rendered, or an
unrendered block present (in which case `tryTriggerRerender` is
invoked). -/
def evalMessage (pres : List PreBlock) : EvalOutcome :=
  let r := scanPres false pres
  if !r.1 then EvalOutcome.noFrontend
  else if !r.2 then EvalOutcome.alreadyRendered
  else EvalOutcome.trigger

end US

/-- A front-end `pre` block already wrapped: its parent has class
`TH-render` and contains an `iframe`. -/
def preWrapped : US.PreBlock :=
  { content := "<body>hi</body>",
    parent := some { isTHRender := true, hasIframe := true } }

/-- A front-end `pre` block with no wrapping parent. -/
def preUnwrapped : US.PreBlock :=
  { content := "<body>hi</body>", parent := none }

/-- The type of a mutation record. -/
inductive MutType where
  | childList
  | characterData
  | attributes
deriving DecidableEq

/-- A mutation record as the significance filter inspects it. -/
structure MutRec where
  mtype : MutType
  addedCount : Nat
  removedCount : Nat
deriving DecidableEq

/-- The significance filter of the userscript observer callback
(`part_000` lines 185–201): a `childList` record with added or removed
nodes, a `characterData` record, or an `attributes` record is
significant and breaks the loop. -/
def isSignificant : List MutRec → Bool
  | [] => false
  | m :: rest =>
    match m.mtype with
    | MutType.childList =>
      if m.addedCount > 0 || m.removedCount > 0 then true
      else isSignificant rest
    | MutType.characterData => true
    | MutType.attributes => true

/-- Timer bookkeeping events, in the order they happen. -/
inductive TimerEvent where
  | clearT (id : Nat)
  | scheduleT (id : Nat) (delayMs : Nat)
deriving DecidableEq

/-- The per-message debounce slot: the pending timer, if any, and the
log of clear/schedule events so far. -/
structure TimerState where
  pending : Option Nat
  log : List TimerEvent
deriving DecidableEq

/-- The clear event emitted for a pending timer, none otherwise. -/
def clearEvents : Option Nat → List TimerEvent
  | some t => [TimerEvent.clearT t]
  | none => []

/-- The step `if (timer) clearTimeout(timer); timer = setTimeout(..., delayMs)`
(`part_000` lines 205–206; `index.js` lines 75–76 on the per-message
slot of `debounceTimers`): clear the pending timer first, then schedule
the new one. -/
def debounceStep (delayMs : Nat) (st : TimerState) (newId : Nat) : TimerState :=
  { pending := some newId,
    log := st.log ++ clearEvents st.pending ++ [TimerEvent.scheduleT newId delayMs] }

/-- Constant `DEBOUNCE_MS` of the userscript variant (`part_000` line 15). -/
def US_DEBOUNCE_MS : Nat := 120

/-- The debounce delay of the v3 variant (`index.js` line 86). -/
def V3_DEBOUNCE_MS : Nat := 600

/-- The timer logic of the userscript observer callback
(`part_000` lines 183–206): ignore insignificant batches, otherwise
debounce. -/
def usObserverCallback (muts : List MutRec) (st : TimerState) (newId : Nat) :
    TimerState :=
  if isSignificant muts then debounceStep US_DEBOUNCE_MS st newId else st

/-- A removed node as the v3 callback inspects it. -/
structure V3RemovedNode where
  isElement : Bool
  isTHRender : Bool
  containsTHRender : Bool
deriving DecidableEq

/-- A v3 mutation record: its removed nodes. -/
structure V3MutRec where
  removed : List V3RemovedNode
deriving DecidableEq

/-- The v3 significance test (`index.js` lines 56–67): some removed
element node is, or contains, a `TH-render` wrapper. -/
def v3ShouldRender (muts : List V3MutRec) : Bool :=
  muts.any (fun m =>
    m.removed.any (fun n => n.isElement && (n.isTHRender || n.containsTHRender)))

/-- The timer logic of the v3 observer callback (`index.js` lines 52–87)
on the per-message debounce slot. -/
def v3ObserverCallback (muts : List V3MutRec) (st : TimerState) (newId : Nat) :
    TimerState :=
  if v3ShouldRender muts then debounceStep V3_DEBOUNCE_MS st newId else st

/-- The options `observe` is called with (`part_000` line 243). -/
structure ObserverConfig where
  childList : Bool
  subtree : Bool
  characterData : Bool
  attributes : Bool

/-- The options record with childList, subtree and characterData
enabled and attributes disabled (`part_000` line 243). -/
def usObserveConfig : ObserverConfig :=
  { childList := true, subtree := true, characterData := true,
    attributes := false }

/-- Modelled from the MutationObserver API contract (environment, not
repository code): records of a given type are delivered to the callback
only when the corresponding observe option is enabled. -/
def deliveredMutations (cfg : ObserverConfig) (muts : List MutRec) :
    List MutRec :=
  muts.filter (fun m =>
    match m.mtype with
    | MutType.childList => cfg.childList
    | MutType.characterData => cfg.characterData
    | MutType.attributes => cfg.attributes)

/-- A host environment in which no strategy of `tryTriggerRerender`
applies: no host API, no event bus, no message-text element. -/
def envNone : Env :=
  { thRefreshAvailable := false, thRefreshThrows := false,
    eventSourceDefined := false, knownEventType := false,
    knownEventName := "", emitThrows := fun _ => false,
    mesTextPresent := false, dispatchThrows := false,
    globals := [], buttons := [], appendThrows := false }

/-! ## Theorems -/

/-- Unfolds `jsIncludes` to the infix relation on character lists. -/
theorem jsIncludes_eq_true_iff (s pat : String) :
    jsIncludes s pat = true ↔ pat.toList <:+: s.toList := by
  simp [jsIncludes]

/-- Claim C3: `isFrontend` (v3 variant) classifies a content string as
a front-end code block exactly when the content contains one of the
substrings `html>`, `<head>`, `<body`; it is negative whenever none of
them occurs. -/
theorem v3_isFrontend_iff_marker_substring (content : String) :
    V3.isFrontend content = true ↔
      ("html>".toList <:+: content.toList
        ∨ "<head>".toList <:+: content.toList
        ∨ "<body".toList <:+: content.toList) := by
  simp [V3.isFrontend, FRONTEND_MARKERS, jsIncludes]

/-- Claim C9: the userscript `isFrontend` lowercases before matching,
so any content whose lowercasing contains a marker is accepted, and
null / undefined / empty content yields `false` without throwing. -/
theorem us_isFrontend_case_insensitive_total (content : String)
    (h : "html>".toList <:+: (jsToLower content).toList
      ∨ "<head>".toList <:+: (jsToLower content).toList
      ∨ "<body".toList <:+: (jsToLower content).toList) :
    US.isFrontend (some content) = true
      ∧ US.isFrontend none = false
      ∧ US.isFrontend (some "") = false := by
  refine ⟨?_, rfl, rfl⟩
  have hne : content.isEmpty = false := by
    cases hcase : content.isEmpty
    · rfl
    · exfalso
      have hc : content = "" := (String.isEmpty_iff content).mp hcase
      subst hc
      rcases h with h | h | h <;> exact absurd h (by decide)
  rcases h with h | h | h
  · have ht : jsIncludes (jsToLower content) "html>" = true :=
      (jsIncludes_eq_true_iff _ _).mpr h
    simp [US.isFrontend, hne, FRONTEND_MARKERS, ht]
  · have ht : jsIncludes (jsToLower content) "<head>" = true :=
      (jsIncludes_eq_true_iff _ _).mpr h
    simp [US.isFrontend, hne, FRONTEND_MARKERS, ht]
  · have ht : jsIncludes (jsToLower content) "<body" = true :=
      (jsIncludes_eq_true_iff _ _).mpr h
    simp [US.isFrontend, hne, FRONTEND_MARKERS, ht]

/-- Witness for C9 at a concrete uppercase input. -/
theorem us_isFrontend_case_insensitive_total_witness :
    US.isFrontend (some "<BODY>") = true
      ∧ US.isFrontend none = false
      ∧ US.isFrontend (some "") = false :=
  us_isFrontend_case_insensitive_total "<BODY>" (by decide)

/-- Claim C2: evaluation of the v3 `observeMesText` at a failing input.
Starting from the empty state, observing the same element twice
attaches two observers to it: line 50 of `index.js` reads
`observedElements.has(mesTextEl);` where an `add` was intended, so the
set stays empty and the duplicate-observer guard never fires. -/
theorem v3_observeMesText_attaches_twice :
    (V3.observeMesText (V3.observeMesText ⟨[], []⟩ 0) 0).attached = [0, 0]
      ∧ (V3.observeMesText (V3.observeMesText ⟨[], []⟩ 0) 0).observed = [] := by
  decide

/-- The guard of the userscript variant does avoid a duplicate attachment:
a second call on the same element leaves the state unchanged. -/
theorem us_observeMesTextGuard_idempotent (st : V3.ObsState) (el : Nat) :
    US.observeMesTextGuard (US.observeMesTextGuard st el) el
      = US.observeMesTextGuard st el := by
  by_cases h : el ∈ st.observed
  · simp [US.observeMesTextGuard, h]
  · simp [US.observeMesTextGuard, h]

/-- Claim C8: strategy six appends exactly one hidden marker span and
its scheduled removal, `MARKER_REMOVE_DELAY_MS` = 300 ms later, restores
the children exactly; the marker is a fresh node, so its identity is in
none of the existing children. -/
theorem marker_strategy_net_unchanged (children : List SpanNode) (freshId : Nat)
    (h : ∀ n, n ∈ children → n.nodeId ≠ freshId) :
    (markerStrategyDom children freshId).1 = children ++ [mkMarker freshId]
      ∧ (markerStrategyDom children freshId).2 = children
      ∧ (mkMarker freshId).displayNone = true
      ∧ MARKER_REMOVE_DELAY_MS = 300 := by
  refine ⟨rfl, ?_, rfl, rfl⟩
  have hm : mkMarker freshId ∉ children := by
    intro hmem
    exact h _ hmem rfl
  simp [markerStrategyDom, removeChild, appendChild,
    List.erase_append_right _ hm]

/-- Witness for C8 at a concrete child list and fresh id. -/
theorem marker_strategy_net_unchanged_witness :
    (markerStrategyDom [⟨0, false, "p"⟩] 1).1
        = [⟨0, false, "p"⟩] ++ [mkMarker 1]
      ∧ (markerStrategyDom [⟨0, false, "p"⟩] 1).2 = [⟨0, false, "p"⟩]
      ∧ (mkMarker 1).displayNone = true
      ∧ MARKER_REMOVE_DELAY_MS = 300 :=
  marker_strategy_net_unchanged [⟨0, false, "p"⟩] 1 (by decide)

/-- Chaining lemma: a `try`/`catch` step around one strategy, followed
by a continuation that realises the first-success semantics of the
remaining strategies, realises the first-success semantics of the whole
list. -/
theorem afterStrat_chain (s : StratRes) (rest : List StratRes)
    (acc : List Action) (k : List Action → Except Unit (Bool × List Action))
    (hk : ∀ a, k a = Except.ok ((firstSuccess rest).1, a ++ (firstSuccess rest).2)) :
    afterStrat acc s k
      = Except.ok ((firstSuccess (s :: rest)).1,
          acc ++ (firstSuccess (s :: rest)).2) := by
  obtain ⟨r, as⟩ := s
  cases r with
  | error e => simp [afterStrat, firstSuccess, hk, List.append_assoc]
  | ok b => cases b <;> simp [afterStrat, firstSuccess, hk, List.append_assoc]

/-- Claim C1: `tryTriggerRerender` attempts the six strategies in
exactly the listed order, stops and returns `true` at the first
strategy block that applies and does not throw out of its `try`, and
returns `false` exactly when no strategy applied; the action trace is
the in-order concatenation of the attempts of the strategies tried, up
to and including the one that succeeded. -/
theorem tryTriggerRerender_first_success (env : Env) (mid : Nat) :
    tryTriggerRerender env mid = Except.ok (firstSuccess (stratList env mid)) := by
  have h : tryTriggerRerender env mid
      = Except.ok ((firstSuccess (stratList env mid)).1,
          [] ++ (firstSuccess (stratList env mid)).2) := by
    unfold tryTriggerRerender stratList
    apply afterStrat_chain
    intro a1
    apply afterStrat_chain
    intro a2
    apply afterStrat_chain
    intro a3
    apply afterStrat_chain
    intro a4
    apply afterStrat_chain
    intro a5
    apply afterStrat_chain
    intro a6
    simp [firstSuccess]
  simpa using h

/-- Chaining lemma: a `try`/`catch` step never yields an error when its
continuation never does. -/
theorem afterStrat_ok (acc : List Action) (s : StratRes)
    (k : List Action → Except Unit (Bool × List Action))
    (hk : ∀ a, ∃ r, k a = Except.ok r) :
    ∃ r, afterStrat acc s k = Except.ok r := by
  obtain ⟨r, as⟩ := s
  cases r with
  | error e => simpa [afterStrat] using hk (acc ++ as)
  | ok b =>
    cases b
    · simpa [afterStrat] using hk (acc ++ as)
    · exact ⟨(true, acc ++ as), rfl⟩

/-- Claim C4: `tryTriggerRerender` never propagates an exception to its
caller: for every host environment, including every combination of
throwing external callees, the result is an `Except.ok`, because every
strategy block sits in its own `try`/`catch` and a throw only falls
through to the next strategy. -/
theorem tryTriggerRerender_never_throws (env : Env) (mid : Nat) :
    ∃ r, tryTriggerRerender env mid = Except.ok r := by
  unfold tryTriggerRerender
  apply afterStrat_ok
  intro a1
  apply afterStrat_ok
  intro a2
  apply afterStrat_ok
  intro a3
  apply afterStrat_ok
  intro a4
  apply afterStrat_ok
  intro a5
  apply afterStrat_ok
  intro a6
  exact ⟨(false, a6), rfl⟩

/-- Claim C5, counterexample: in a message holding two front-end code
blocks, one already wrapped in a rendered `TH-render`/`iframe` container
and one not, the debounced evaluation finds the wrapped front-end block
(`preWrapped` passes `isFrontend` and `isPreRendered`) and nevertheless
ends in `trigger`, i.e. `tryTriggerRerender` is invoked. -/
theorem evalMessage_triggers_despite_wrapped_block :
    US.isFrontend (some (jsTrim preWrapped.content)) = true
      ∧ US.isPreRendered (some preWrapped) = true
      ∧ US.evalMessage [preWrapped, preUnwrapped] = US.EvalOutcome.trigger := by
  decide

/-- Auxiliary: when every front-end block in the list is pre-rendered,
the scan never reports `needsRender`. -/
theorem scanPres_no_need (l : List US.PreBlock)
    (hl : ∀ p, p ∈ l → US.isFrontend (some (jsTrim p.content)) = true →
      US.isPreRendered (some p) = true) :
    ∀ found, (US.scanPres found l).2 = false := by
  induction l with
  | nil => intro found; rfl
  | cons p rest ih =>
    intro found
    by_cases hf : US.isFrontend (some (jsTrim p.content)) = true
    · have hr := hl p (by simp) hf
      simp only [US.scanPres, hf, hr, if_true]
      exact ih (fun q hq hfq => hl q (by simp [hq]) hfq) true
    · simp only [US.scanPres, if_neg hf]
      exact ih (fun q hq hfq => hl q (by simp [hq]) hfq) found

/-- Claim C5, amended: when every front-end code block found by the
debounced evaluation is already wrapped in a rendered iframe container
(per `isPreRendered`), no re-render attempt is made for the message:
the evaluation does not reach the `tryTriggerRerender` call. -/
theorem evalMessage_no_trigger_when_all_wrapped (pres : List US.PreBlock)
    (h : ∀ p, p ∈ pres → US.isFrontend (some (jsTrim p.content)) = true →
      US.isPreRendered (some p) = true) :
    US.evalMessage pres ≠ US.EvalOutcome.trigger := by
  have h2 := scanPres_no_need pres h false
  intro hc
  simp only [US.evalMessage, h2] at hc
  cases hfound : (US.scanPres false pres).1 <;>
    simp [hfound] at hc

/-- Witness for the amended C5: a message whose only front-end block is
wrapped is not re-rendered. -/
theorem evalMessage_no_trigger_when_all_wrapped_witness :
    US.evalMessage [preWrapped] ≠ US.EvalOutcome.trigger :=
  evalMessage_no_trigger_when_all_wrapped [preWrapped] (by decide)

/-- Claim C6: on every significant mutation batch, both variants first
clear the pending per-message timer (when there is one) and only then
schedule the new one; the userscript debounce delay is 120 ms, the v3
delay is 600 ms, and both lie within 120–600 ms. -/
theorem debounce_clear_then_schedule
    (muts : List MutRec) (st : TimerState) (newId : Nat)
    (muts2 : List V3MutRec) (st2 : TimerState) (newId2 : Nat)
    (h1 : isSignificant muts = true) (h2 : v3ShouldRender muts2 = true) :
    usObserverCallback muts st newId
      = { pending := some newId,
          log := st.log ++ clearEvents st.pending
            ++ [TimerEvent.scheduleT newId US_DEBOUNCE_MS] }
      ∧ v3ObserverCallback muts2 st2 newId2
        = { pending := some newId2,
            log := st2.log ++ clearEvents st2.pending
              ++ [TimerEvent.scheduleT newId2 V3_DEBOUNCE_MS] }
      ∧ US_DEBOUNCE_MS = 120 ∧ V3_DEBOUNCE_MS = 600
      ∧ 120 ≤ US_DEBOUNCE_MS ∧ US_DEBOUNCE_MS ≤ 600
      ∧ 120 ≤ V3_DEBOUNCE_MS ∧ V3_DEBOUNCE_MS ≤ 600 := by
  refine ⟨?_, ?_, rfl, rfl, by decide, by decide, by decide, by decide⟩
  · simp [usObserverCallback, h1, debounceStep]
  · simp [v3ObserverCallback, h2, debounceStep]

/-- Witness for C6 at concrete batches and timer states. -/
theorem debounce_clear_then_schedule_witness :
    usObserverCallback [⟨MutType.characterData, 0, 0⟩] ⟨some 7, []⟩ 9
      = { pending := some 9,
          log := [] ++ clearEvents (some 7)
            ++ [TimerEvent.scheduleT 9 US_DEBOUNCE_MS] }
      ∧ v3ObserverCallback [⟨[⟨true, true, false⟩]⟩] ⟨none, []⟩ 3
        = { pending := some 3,
            log := [] ++ clearEvents none
              ++ [TimerEvent.scheduleT 3 V3_DEBOUNCE_MS] }
      ∧ US_DEBOUNCE_MS = 120 ∧ V3_DEBOUNCE_MS = 600
      ∧ 120 ≤ US_DEBOUNCE_MS ∧ US_DEBOUNCE_MS ≤ 600
      ∧ 120 ≤ V3_DEBOUNCE_MS ∧ V3_DEBOUNCE_MS ≤ 600 :=
  debounce_clear_then_schedule
    [⟨MutType.characterData, 0, 0⟩] ⟨some 7, []⟩ 9
    [⟨[⟨true, true, false⟩]⟩] ⟨none, []⟩ 3 (by decide) (by decide)

/-- Claim C7: when the immediate `tryTriggerRerender` call reports
`false`, exactly one delayed re-attempt is scheduled, 250 ms later, and
nothing further is scheduled whatever that re-attempt returns (its
environment `env2` is arbitrary and its result is the last entry). -/
theorem single_delayed_retry (env1 env2 : Env) (mid : Nat)
    (h : rerenderResult env1 mid = false) :
    triggerAttempts env1 env2 mid
      = [(0, false), (250, rerenderResult env2 mid)]
      ∧ RETRY_DELAY_MS = 250 := by
  refine ⟨?_, rfl⟩
  simp [triggerAttempts, h, RETRY_DELAY_MS]

/-- Witness for C7: in a host with no rerender facility at all the
immediate attempt reports `false` and exactly the one retry entry
appears. -/
theorem single_delayed_retry_witness :
    triggerAttempts envNone envNone 0
      = [(0, false), (250, rerenderResult envNone 0)]
      ∧ RETRY_DELAY_MS = 250 :=
  single_delayed_retry envNone envNone 0 rfl

/-- Claim C10: the significance filter does treat an `attributes`
record as significant, but the observer is configured with
`attributes: false`, so the browser delivers no such record and an
attribute-only batch never starts a debounce timer: the timer state is
left untouched. -/
theorem attribute_mutations_never_schedule
    (muts : List MutRec) (st : TimerState) (newId : Nat)
    (h : ∀ m, m ∈ muts → m.mtype = MutType.attributes) :
    isSignificant [⟨MutType.attributes, 0, 0⟩] = true
      ∧ usObserveConfig.attributes = false
      ∧ usObserverCallback (deliveredMutations usObserveConfig muts) st newId
        = st := by
  refine ⟨rfl, rfl, ?_⟩
  have hd : deliveredMutations usObserveConfig muts = [] := by
    rw [deliveredMutations, List.filter_eq_nil_iff]
    intro m hm
    rw [h m hm]
    simp [usObserveConfig]
  rw [hd]
  simp [usObserverCallback, isSignificant]

/-- Witness for C10: a batch of one attribute record, with added and
removed node counts that would count as significant for `childList`,
leaves the timer state unchanged. -/
theorem attribute_mutations_never_schedule_witness :
    isSignificant [⟨MutType.attributes, 0, 0⟩] = true
      ∧ usObserveConfig.attributes = false
      ∧ usObserverCallback
          (deliveredMutations usObserveConfig [⟨MutType.attributes, 5, 5⟩])
          ⟨none, []⟩ 4
        = ⟨none, []⟩ :=
  attribute_mutations_never_schedule [⟨MutType.attributes, 5, 5⟩]
    ⟨none, []⟩ 4 (by decide)

end CodeBlockRerender
